import Mathlib

/-!
Verification of the OanTrack expense dashboard (src/app.py) against its
specification: a shallow embedding of the data loading, caching, write,
filter and aggregation logic of the app, with theorems settling the
specification claims.
-/

set_option linter.unusedVariables false
set_option linter.unnecessarySeqFocus false

namespace OanTrack

/-- A calendar date (year, month, day). The app stores
datetime.combine(date, time()), which zeroes the time of day, and no
claim compares instants within a single day, so time of day is elided. -/
structure Date where
  year : Nat
  month : Nat
  day : Nat
deriving DecidableEq, Repr

/-- Chronological order on dates: lexicographic on year, month, day,
mirroring the order of the corresponding midnight timestamps. -/
def Date.le (a b : Date) : Prop :=
  a.year < b.year ∨
    (a.year = b.year ∧
      (a.month < b.month ∨ (a.month = b.month ∧ a.day ≤ b.day)))

instance : DecidableRel Date.le := fun a b => by
  unfold Date.le; exact inferInstance

/-- The year-month bucket of a date, as produced by strftime with a
year-month format on the date column (src/app.py line 204). -/
def monthStr (d : Date) : String :=
  toString d.year ++ "-" ++ toString d.month

/-- A stored raw date value: either one that pd.to_datetime parses, or
one that it coerces to NaT (src/app.py line 61). -/
inductive RawDate where
  | parsed (d : Date)
  | unparseable (s : String)
deriving DecidableEq, Repr

/-- A raw document of the expense collection. Optional fields model
document keys that may be absent in older records; a pandas DataFrame
built from such documents holds NaN in the corresponding cells. -/
structure RawRecord where
  _id : Nat
  user_id : String
  date : Option RawDate
  merchant : String
  category : Option String
  amount : Rat
  currency : String
  payment_method : String
  items : List String
  receipt_image : String
  notes : String
deriving DecidableEq, Repr

/-- A row of the materialized snapshot produced by load_data. The date
is some parsed date in the branch where a date column exists (rows
failing to parse having been dropped), and none (NaT) in the branch
where the stored data has no date column at all. -/
structure Row where
  _id : Nat
  date : Option Date
  merchant : String
  category : Option String
  amount : Rat
deriving DecidableEq, Repr

/-- User-visible messages the app can emit on the code paths modelled
here. droppedReport is the dropped-row-count report that the spec calls
for; it is listed so that its absence from what load_data emits is
expressible. -/
inductive Msg where
  | warnNoDateField
  | errorLoading
  | droppedReport (n : Nat)
  | errorFillForm
  | successAdded
  | successRemoved
deriving DecidableEq, Repr

/-- pd.to_datetime with error coercion, applied to one cell: an absent
key (NaN) and an unparseable value both coerce to NaT, here none
(src/app.py line 61). -/
def parseDate : Option RawDate → Option Date
  | some (RawDate.parsed d) => some d
  | some (RawDate.unparseable _) => none
  | none => none

/-- Whether the DataFrame built from the raw documents has a category
column: pandas creates the column when at least one document has the
key (src/app.py line 56). -/
def hasCategoryColumn (raw : List RawRecord) : Bool :=
  raw.any (fun r => r.category.isSome)

/-- Whether the DataFrame built from the raw documents has a date
column (src/app.py line 60). -/
def hasDateColumn (raw : List RawRecord) : Bool :=
  raw.any (fun r => r.date.isSome)

/-- The category cell of a record after the backfill step of src/app.py
lines 56-57: the whole column is set to Uncategorized only when no
document has the key (the column is absent); otherwise each cell keeps
its stored value, NaN included. -/
def backfillCategory (raw : List RawRecord) (r : RawRecord) : Option String :=
  if hasCategoryColumn raw then r.category else some "Uncategorized"

/-- The normalization body of load_data on a successfully fetched
document list (src/app.py lines 49-67): empty fetch gives an empty
DataFrame; with a date column, dates are coerced and rows with NaT
dates are dropped; without one, a warning is emitted and the date
column is all NaT. -/
def normalizeData (raw : List RawRecord) : List Row × List Msg :=
  if raw.isEmpty then ([], [])
  else if hasDateColumn raw then
    (raw.filterMap (fun r =>
      (parseDate r.date).map (fun d =>
        { _id := r._id, date := some d, merchant := r.merchant,
          category := backfillCategory raw r, amount := r.amount })), [])
  else
    (raw.map (fun r =>
      { _id := r._id, date := none, merchant := r.merchant,
        category := backfillCategory raw r, amount := r.amount }),
     [Msg.warnNoDateField])

/-- load_data (src/app.py lines 45-71). The argument is the outcome of
the fetch-and-normalize try block: the error case models any exception
raised while fetching or normalizing, which the except branch turns
into an error message and an empty DataFrame. -/
def load_data : Except String (List RawRecord) → List Row × List Msg
  | Except.error _ => ([], [Msg.errorLoading])
  | Except.ok raw => normalizeData raw

/-- Modelled from the spec: the backing document collection (the Store
Gateway of spec section 4.1) is external to src/ (pymongo); it is
modelled as the list of stored documents plus the next identifier the
store will assign on insert. -/
structure Store where
  records : List RawRecord
  nextId : Nat
deriving DecidableEq, Repr

/-- Modelled from the spec: insert appends a new document with a
store-assigned identifier and returns that identifier (spec section 4.1,
pymongo insert_one at src/app.py line 110). -/
def insert_one (s : Store) (doc : RawRecord) : Store × Nat :=
  ({ records := s.records ++ [{ doc with _id := s.nextId }],
     nextId := s.nextId + 1 }, s.nextId)

/-- Modelled from the spec: delete removes at most one document with
the given identifier and reports whether one was removed; a missing
identifier is a no-op success (spec section 4.1, pymongo delete_one and
its DeleteResult at src/app.py line 190). -/
def delete_one (s : Store) (id : Nat) : Store × Bool :=
  ({ records := s.records.eraseP (fun r => r._id == id),
     nextId := s.nextId },
   s.records.any (fun r => r._id == id))

/-- The process-wide state the reruns act on: the store plus the
st.cache_data entry for load_data, cleared wholesale by
st.cache_data.clear (src/app.py lines 112 and 191). -/
structure AppState where
  store : Store
  cache : Option (List Row)
deriving DecidableEq, Repr

/-- A cached call of load_data (st.cache_data, src/app.py lines 45-46
and 74-75): return the cached snapshot when one is present, otherwise
fetch from the store, normalize, and fill the cache. -/
def load (st : AppState) : List Row × AppState :=
  match st.cache with
  | some snap => (snap, st)
  | none =>
    let snap := (load_data (Except.ok st.store.records)).1
    (snap, { st with cache := some snap })

/-- The fields collected by the add-expense form (src/app.py
lines 82-90). -/
structure FormInput where
  merchant : String
  category : String
  amount : Rat
  date : Date
  payment_method : String
  notes : String
deriving DecidableEq, Repr

/-- The new_receipt document built by the add-expense form (src/app.py
lines 98-109); its identifier is assigned by the store on insert. -/
def new_receipt (f : FormInput) : RawRecord :=
  { _id := 0, user_id := "bentley001",
    date := some (RawDate.parsed f.date), merchant := f.merchant,
    category := some f.category, amount := f.amount, currency := "CAD",
    payment_method := f.payment_method, items := [],
    receipt_image := "", notes := f.notes }

/-- The snapshot row that materializes for a document inserted from the
form once the store has assigned it the identifier n: its date parses
back to the form date and its category is the selected one. -/
def inserted_row (f : FormInput) (n : Nat) : Row :=
  { _id := n, date := some f.date, merchant := f.merchant,
    category := some f.category, amount := f.amount }

/-- The submit branch of the add-expense form (src/app.py lines
93-114): validate merchant and amount, then insert, clear the cache and
report success; on validation failure report the inline error and
change nothing. -/
def show_add_expense_form (f : FormInput) (st : AppState) :
    AppState × List Msg :=
  if f.merchant = "" ∨ f.amount ≤ 0 then (st, [Msg.errorFillForm])
  else
    ({ store := (insert_one st.store (new_receipt f)).1, cache := none },
     [Msg.successAdded])

/-- The remove branch of the remove-expense form (src/app.py lines
187-193): delete the selected document, clear the cache and report
success. -/
def remove_selected_expense (id : Nat) (st : AppState) :
    AppState × List Msg :=
  ({ store := (delete_one st.store id).1, cache := none },
   [Msg.successRemoved])

/-- Boolean descending-date comparison used by sort_values on the date
column (src/app.py line 173): later dates first, NaT rows last. -/
def rowDateDescLe (a b : Row) : Bool :=
  match a.date, b.date with
  | some d1, some d2 => decide (Date.le d2 d1)
  | some _, none => true
  | none, none => true
  | none, some _ => false

/-- The descending-date order as a relation, for use with the sorting
lemmas. -/
def rowDateDescR (a b : Row) : Prop :=
  rowDateDescLe a b = true

instance : DecidableRel rowDateDescR := fun a b =>
  instDecidableEqBool (rowDateDescLe a b) true

instance : IsTotal Row rowDateDescR := ⟨by
  intro a b
  unfold rowDateDescR rowDateDescLe
  rcases ha : a.date with _ | d1 <;> rcases hb : b.date with _ | d2 <;>
    simp [Date.le] <;> omega⟩

instance : IsTrans Row rowDateDescR := ⟨by
  intro a b c hab hbc
  unfold rowDateDescR rowDateDescLe at hab hbc ⊢
  rcases ha : a.date with _ | d1 <;> rcases hb : b.date with _ | d2 <;>
    rcases hc : c.date with _ | d3 <;>
      simp [ha, hb, hc, Date.le] at hab hbc ⊢ <;> omega⟩

/-- The candidate list of the remove form: the snapshot sorted by date
descending, first 10 taken (src/app.py line 173). -/
def recent_expenses (rows : List Row) : List Row :=
  (List.insertionSort rowDateDescR rows).take 10

/-- The selectbox options of the remove form: the identifiers of the
recent expenses (src/app.py lines 181-185); only these can be selected
for removal. -/
def removal_options (rows : List Row) : List Nat :=
  (recent_expenses rows).map (fun r => r._id)

/-- astype(str) applied to one month cell: a NaN month (from a NaT
date) prints as the string nan (src/app.py line 218). -/
def monthCellStr : Option Date → String
  | some d => monthStr d
  | none => "nan"

/-- The module-level filter application (src/app.py lines 213-218):
start from a copy of the snapshot, filter by category unless All is
selected, then by month unless All is selected. -/
def apply_filters (rows : List Row) (selCategory selMonth : String) :
    List Row :=
  let step1 :=
    if selCategory = "All" then rows
    else rows.filter (fun r => r.category == some selCategory)
  if selMonth = "All" then step1
  else step1.filter (fun r => monthCellStr r.date == selMonth)

/-- The reverse application order stated by the spec: month filter
first, then category filter. -/
def apply_filters_month_first (rows : List Row)
    (selCategory selMonth : String) : List Row :=
  let step1 :=
    if selMonth = "All" then rows
    else rows.filter (fun r => monthCellStr r.date == selMonth)
  if selCategory = "All" then step1
  else step1.filter (fun r => r.category == some selCategory)

/-- Total spent over the filtered set (src/app.py line 123). -/
def total_spent (rows : List Row) : Rat :=
  if rows.isEmpty then 0 else (rows.map (fun r => r.amount)).sum

/-- Transaction count over the filtered set (src/app.py line 127). -/
def num_transactions (rows : List Row) : Nat := rows.length

/-- Average per transaction (src/app.py lines 130-135): inside the
nonempty branch the count-guarded quotient, in the empty branch the
displayed 0.00. -/
def average_spent (rows : List Row) : Rat :=
  if rows.isEmpty then 0
  else if 0 < num_transactions rows then
    total_spent rows / (num_transactions rows : Rat)
  else 0

/-- The two top-level views of the app. -/
inductive View where
  | addFormOnly
  | fullDashboard
deriving DecidableEq, Repr

/-- The module-level dispatch (src/app.py lines 198-201): an empty
snapshot shows only the add form, any other snapshot the full
dashboard. -/
def main_view (snapshot : List Row) : View :=
  if snapshot.isEmpty then View.addFormOnly else View.fullDashboard

/-- The kind of value a Python argument holds, as far as st.cache_data
keying is concerned: the live pymongo collection handle of src/app.py
line 41, or a plain value such as a string. -/
inductive ArgValue where
  | collectionHandle
  | strValue (s : String)
deriving DecidableEq, Repr

/-- Whether st.cache_data can key by the value: a plain value such as a
string is hashable; the live collection handle is not a plain value and
streamlit cannot hash it. -/
def isPlainHashable : ArgValue → Bool
  | ArgValue.collectionHandle => false
  | ArgValue.strValue _ => true

/-- A parameter of a cached function together with the value a call
passes for it. -/
structure Param where
  name : String
  value : ArgValue
deriving DecidableEq, Repr

/-- The parameter list of load_data (src/app.py line 46) with the
values passed by the module-level call load_data(collection) at
src/app.py line 75: the single parameter named collection receives the
live collection handle of line 41. -/
def load_data_call_params : List Param :=
  [{ name := "collection", value := ArgValue.collectionHandle }]

/-- st.cache_data keys a call by every parameter whose name does not
start with an underscore character. -/
def cache_key_params (ps : List Param) : List Param :=
  ps.filter (fun p => !(p.name.data.head? == some '_'))

/-- A sample snapshot row used to instantiate hypotheses of the claim
theorems at concrete inputs. -/
def sampleRow : Row :=
  { _id := 1, date := some { year := 2024, month := 5, day := 1 },
    merchant := "Tim Hortons", category := some "Food & Beverage",
    amount := 7 }

/-- A sample raw document with a parseable date and a category. -/
def rawGood : RawRecord :=
  { _id := 1, user_id := "bentley001",
    date := some (RawDate.parsed { year := 2024, month := 5, day := 1 }),
    merchant := "Tim Hortons", category := some "Food & Beverage",
    amount := 7, currency := "CAD", payment_method := "Cash",
    items := [], receipt_image := "", notes := "" }

/-- A sample raw document whose date value does not parse. -/
def rawBadDate : RawRecord :=
  { rawGood with
    _id := 2,
    date := some (RawDate.unparseable "not-a-date") }

/-- A sample raw document that lacks the category key. -/
def rawNoCat : RawRecord :=
  { rawGood with _id := 3, category := none }

/-- A sample store holding one document with identifier 1. -/
def sampleStore : Store := { records := [rawGood], nextId := 5 }

/-- A sample application state with an empty store and a cold cache. -/
def sampleState : AppState :=
  { store := { records := [], nextId := 0 }, cache := none }

/-- A form submission that fails validation: empty merchant. -/
def badForm : FormInput :=
  { merchant := "", category := "Groceries", amount := 10,
    date := { year := 2024, month := 1, day := 2 },
    payment_method := "Cash", notes := "" }

/-- A form submission that passes validation. -/
def goodForm : FormInput :=
  { merchant := "Tim Hortons", category := "Food & Beverage",
    amount := 10, date := { year := 2024, month := 5, day := 1 },
    payment_method := "Credit Card", notes := "" }

/-!
Theorems settling the specification claims.
-/

/-- Claim C1: the claim that the data-loading cache is always keyed by a
plain hashable value fails on the code: st.cache_data keys load_data by
its one parameter, which the module-level call binds to the live
collection handle, not to a plain value. -/
theorem C1_cache_key_is_live_handle :
    cache_key_params load_data_call_params
      = [{ name := "collection", value := ArgValue.collectionHandle }]
    ∧ ¬ (∀ p ∈ cache_key_params load_data_call_params,
          isPlainHashable p.value = true) := by
  constructor
  · rfl
  · decide

/-- Claim C3: an add-expense submission with an empty merchant or a
non-positive amount fails validation before any store call: the state
(store and cache alike) is unchanged and only the inline error is
reported. -/
theorem C3_validation_blocks_write (f : FormInput) (st : AppState)
    (h : f.merchant = "" ∨ f.amount ≤ 0) :
    show_add_expense_form f st = (st, [Msg.errorFillForm]) := by
  unfold show_add_expense_form
  rw [if_pos h]

/-- Witness for C3: the empty-merchant form leaves the sample state
untouched. -/
theorem C3_validation_blocks_write_witness :
    (badForm.merchant = "" ∨ badForm.amount ≤ 0)
    ∧ show_add_expense_form badForm sampleState
        = (sampleState, [Msg.errorFillForm]) :=
  ⟨Or.inl rfl, C3_validation_blocks_write badForm sampleState (Or.inl rfl)⟩

/-- Claim C7: filtering the snapshot is a pure function of the snapshot
and the selections; applying the category filter then the month filter
equals applying them in the reverse order; selecting All for both
dimensions is the identity; hence filtering an already filtered table
with All and All leaves it unchanged. -/
theorem C7_filters_commute_and_All_is_identity (S : List Row) (c m : String) :
    apply_filters S c m = apply_filters_month_first S c m
    ∧ apply_filters S "All" "All" = S
    ∧ apply_filters (apply_filters S c m) "All" "All"
        = apply_filters S c m := by
  have hAll : ∀ T : List Row, apply_filters T "All" "All" = T := by
    intro T
    simp [apply_filters]
  refine ⟨?_, hAll S, hAll _⟩
  unfold apply_filters apply_filters_month_first
  by_cases hc : c = "All" <;> by_cases hm : m = "All" <;> simp [hc, hm]
  exact List.filter_congr (fun a _ => Bool.and_comm _ _)

/-- Claim C8: the average-per-transaction aggregate equals total spent
divided by the transaction count when the count is positive, and equals
0 when the filtered set is empty; the quotient is count-guarded, so no
division by zero is performed in either case. -/
theorem C8_average_guarded (rows : List Row) :
    (0 < num_transactions rows →
      average_spent rows = total_spent rows / (num_transactions rows : Rat))
    ∧ (rows = [] → average_spent rows = 0) := by
  constructor
  · intro h
    have hne : rows.isEmpty = false := by
      cases rows with
      | nil => simp [num_transactions] at h
      | cons a l => rfl
    simp [average_spent, hne, h]
  · intro h
    subst h
    simp [average_spent]

/-- Witness for C8 at a concrete one-row set and at the empty set. -/
theorem C8_average_guarded_witness :
    (0 < num_transactions [sampleRow]
      ∧ average_spent [sampleRow]
          = total_spent [sampleRow] / (num_transactions [sampleRow] : Rat))
    ∧ (([] : List Row) = []
      ∧ average_spent ([] : List Row) = 0) :=
  ⟨⟨by decide, (C8_average_guarded [sampleRow]).1 (by decide)⟩,
   ⟨rfl, (C8_average_guarded ([] : List Row)).2 rfl⟩⟩

/-- Helper: on a document list that has a date column, normalization is
the drop-unparseable-dates filterMap and emits no message. -/
theorem normalizeData_withDate (raw : List RawRecord)
    (hd : hasDateColumn raw = true) :
    normalizeData raw
      = (raw.filterMap (fun r =>
          (parseDate r.date).map (fun d =>
            { _id := r._id, date := some d, merchant := r.merchant,
              category := backfillCategory raw r, amount := r.amount })),
         []) := by
  have hne : raw.isEmpty = false := by
    cases raw with
    | nil => simp [hasDateColumn] at hd
    | cons a l => rfl
  unfold normalizeData
  rw [hne, hd]
  simp

/-- Claim C2: a successful write (insert via the add form, delete via
the remove form) clears the whole cached snapshot, and the next load
re-fetches from the store and reflects the write: after an add the
fresh snapshot contains the inserted row, and after a remove the store
holds the eraseP result and the snapshot is its fresh normalization. -/
theorem C2_write_invalidates_then_load_refetches (f : FormInput)
    (st : AppState) (id : Nat) (hm : f.merchant ≠ "") (ha : 0 < f.amount) :
    ((show_add_expense_form f st).1.cache = none
      ∧ (load (show_add_expense_form f st).1).1
          = (load_data
              (Except.ok (show_add_expense_form f st).1.store.records)).1
      ∧ inserted_row f st.store.nextId
          ∈ (load (show_add_expense_form f st).1).1)
    ∧ ((remove_selected_expense id st).1.cache = none
      ∧ (load (remove_selected_expense id st).1).1
          = (load_data
              (Except.ok (remove_selected_expense id st).1.store.records)).1
      ∧ (remove_selected_expense id st).1.store.records
          = st.store.records.eraseP (fun r => r._id == id)) := by
  have hcond : ¬ (f.merchant = "" ∨ f.amount ≤ 0) := by
    push_neg
    exact ⟨hm, ha⟩
  have hadd : show_add_expense_form f st
      = ({ store := (insert_one st.store (new_receipt f)).1, cache := none },
         [Msg.successAdded]) := by
    unfold show_add_expense_form
    rw [if_neg hcond]
  refine ⟨⟨?_, ?_, ?_⟩, ⟨rfl, rfl, rfl⟩⟩
  · rw [hadd]
  · rw [hadd]
    rfl
  · rw [hadd]
    have hdate :
        hasDateColumn (insert_one st.store (new_receipt f)).1.records
          = true := by
      simp [insert_one, hasDateColumn, new_receipt]
    have hcat :
        hasCategoryColumn (insert_one st.store (new_receipt f)).1.records
          = true := by
      simp [insert_one, hasCategoryColumn, new_receipt]
    show inserted_row f st.store.nextId
        ∈ (normalizeData (insert_one st.store (new_receipt f)).1.records).1
    rw [normalizeData_withDate _ hdate]
    apply List.mem_filterMap.mpr
    refine ⟨{ new_receipt f with _id := st.store.nextId },
      List.mem_append_right _ (List.mem_singleton.mpr rfl), ?_⟩
    simp only [backfillCategory, hcat, if_true]
    simp [new_receipt, parseDate, inserted_row]

/-- Witness for C2: the valid sample form against the empty sample
state, and removal of identifier 0. -/
theorem C2_write_invalidates_then_load_refetches_witness :
    (goodForm.merchant ≠ "" ∧ 0 < goodForm.amount)
    ∧ (((show_add_expense_form goodForm sampleState).1.cache = none
      ∧ (load (show_add_expense_form goodForm sampleState).1).1
          = (load_data
              (Except.ok
                (show_add_expense_form goodForm
                  sampleState).1.store.records)).1
      ∧ inserted_row goodForm sampleState.store.nextId
          ∈ (load (show_add_expense_form goodForm sampleState).1).1)
    ∧ ((remove_selected_expense 0 sampleState).1.cache = none
      ∧ (load (remove_selected_expense 0 sampleState).1).1
          = (load_data
              (Except.ok
                (remove_selected_expense 0
                  sampleState).1.store.records)).1
      ∧ (remove_selected_expense 0 sampleState).1.store.records
          = sampleState.store.records.eraseP (fun r => r._id == 0))) :=
  ⟨⟨by decide, by decide⟩,
   C2_write_invalidates_then_load_refetches goodForm sampleState 0
     (by decide) (by decide)⟩

/-- Claim C6: delete reports through its result whether a document was
actually removed, and a missing identifier is a no-op success: the
store is unchanged, false is reported, and the surrounding remove flow
still completes with its success message. -/
theorem C6_delete_reports_removal_and_missing_id_is_noop (s : Store)
    (id : Nat) :
    ((delete_one s id).2 = true ↔ ∃ r ∈ s.records, r._id = id)
    ∧ ((∀ r ∈ s.records, r._id ≠ id) →
        (delete_one s id).1 = s ∧ (delete_one s id).2 = false)
    ∧ (∀ st : AppState,
        (remove_selected_expense id st).2 = [Msg.successRemoved]) := by
  refine ⟨?_, ?_, fun st => rfl⟩
  · simp [delete_one]
  · intro h
    have h2 : s.records.eraseP (fun r => r._id == id) = s.records :=
      List.eraseP_of_forall_not (fun a ha => by simp [h a ha])
    have h3 : s.records.any (fun r => r._id == id) = false := by
      simp only [List.any_eq_false]
      intro r hr
      simp [h r hr]
    constructor
    · simp [delete_one, h2]
    · simp [delete_one, h3]

/-- Witness for C6: deleting the missing identifier 2 from the sample
store is a no-op success. -/
theorem C6_delete_missing_id_witness :
    (∀ r ∈ sampleStore.records, r._id ≠ 2)
    ∧ ((delete_one sampleStore 2).1 = sampleStore
      ∧ (delete_one sampleStore 2).2 = false) :=
  ⟨by decide,
   (C6_delete_reports_removal_and_missing_id_is_noop sampleStore 2).2.1
     (by decide)⟩

/-- Helper: a filterMap keeps exactly the elements on which the function
is some. -/
theorem length_filterMap_eq_length_filter {α β : Type} (g : α → Option β)
    (l : List α) :
    (l.filterMap g).length = (l.filter (fun a => (g a).isSome)).length := by
  induction l with
  | nil => rfl
  | cons a l ih =>
    cases hg : g a <;>
      simp [List.filterMap_cons, hg, List.filter_cons, ih]

/-- Helper: every snapshot row produced by normalization takes its
category cell from the backfill step applied to some raw document. -/
theorem mem_normalizeData_category (raw : List RawRecord) (row : Row)
    (hrow : row ∈ (normalizeData raw).1) :
    ∃ r ∈ raw, row.category = backfillCategory raw r := by
  unfold normalizeData at hrow
  by_cases he : raw.isEmpty = true
  · rw [if_pos he] at hrow
    simp at hrow
  · rw [if_neg he] at hrow
    by_cases hd : hasDateColumn raw = true
    · rw [if_pos hd] at hrow
      rcases List.mem_filterMap.mp hrow with ⟨r, hr, heq⟩
      rcases Option.map_eq_some'.mp heq with ⟨d, hpd, hbuild⟩
      refine ⟨r, hr, ?_⟩
      rw [← hbuild]
    · rw [if_neg hd] at hrow
      rcases List.mem_map.mp hrow with ⟨r, hr, heq⟩
      refine ⟨r, hr, ?_⟩
      rw [← heq]

/-- Counterexample for C4: loading a store holding one good document and
one document with an unparseable date drops the bad document from the
snapshot, yet load_data emits no message at all; in particular the
dropped-row count that the claim says is reported visibly is not. -/
theorem C4_counterexample_drop_not_reported :
    (load_data (Except.ok [rawGood, rawBadDate])).1 = [sampleRow]
    ∧ (load_data (Except.ok [rawGood, rawBadDate])).2 = [] := by
  constructor <;> rfl

/-- Claim C4 (amended): on a load whose raw data has a date column, every
record whose date fails to parse is excluded from the materialized
snapshot (each snapshot row carries a parsed date, and there is exactly
one row per parseable-date record), loading modifies no store state, and
the drop is silent: no dropped-row count is reported. -/
theorem C4_amended_unparseable_dates_dropped_silently
    (raw : List RawRecord) (hd : hasDateColumn raw = true) :
    (∀ row ∈ (load_data (Except.ok raw)).1, row.date.isSome = true)
    ∧ (load_data (Except.ok raw)).1.length
        = (raw.filter (fun r => (parseDate r.date).isSome)).length
    ∧ (∀ n, Msg.droppedReport n ∉ (load_data (Except.ok raw)).2)
    ∧ (∀ st : AppState, (load st).2.store = st.store) := by
  have hload : load_data (Except.ok raw) = normalizeData raw := rfl
  rw [hload, normalizeData_withDate raw hd]
  refine ⟨?_, ?_, ?_, ?_⟩
  · intro row hrow
    rcases List.mem_filterMap.mp hrow with ⟨r, hr, heq⟩
    rcases Option.map_eq_some'.mp heq with ⟨d, hpd, hbuild⟩
    rw [← hbuild]
    rfl
  · rw [length_filterMap_eq_length_filter]
    congr 1
    apply List.filter_congr
    intro r hr
    cases parseDate r.date <;> rfl
  · intro n
    simp
  · intro st
    cases hc : st.cache <;> simp [load, hc]

/-- Witness for C4 (amended) at the two-document store with one
unparseable date. -/
theorem C4_amended_witness :
    hasDateColumn [rawGood, rawBadDate] = true
    ∧ ((∀ row ∈ (load_data (Except.ok [rawGood, rawBadDate])).1,
          row.date.isSome = true)
      ∧ (load_data (Except.ok [rawGood, rawBadDate])).1.length
          = ([rawGood, rawBadDate].filter
              (fun r => (parseDate r.date).isSome)).length
      ∧ (∀ n, Msg.droppedReport n
            ∉ (load_data (Except.ok [rawGood, rawBadDate])).2)
      ∧ (∀ st : AppState, (load st).2.store = st.store)) :=
  ⟨by decide,
   C4_amended_unparseable_dates_dropped_silently [rawGood, rawBadDate]
     (by decide)⟩

/-- Counterexample for C5: in a store where one document has a category
and another lacks it, the category column exists, the backfill does not
run, and the categoryless document keeps a missing category cell in the
snapshot instead of the claimed Uncategorized. -/
theorem C5_counterexample_mixed_categories_keep_missing :
    ((load_data (Except.ok [rawGood, rawNoCat])).1.map
        (fun r => r.category))
      = [some "Food & Beverage", none]
    ∧ ¬ ((load_data (Except.ok [rawGood, rawNoCat])).1.all
        (fun r => r.category.isSome) = true) := by
  constructor
  · rfl
  · decide

/-- Claim C5 (amended): the Uncategorized backfill is column-level, not
per record: when no stored document has a category value, every
snapshot row gets the category Uncategorized; when at least one stored
document has a category, each snapshot row keeps the stored category
cell of its document, missing cells included. -/
theorem C5_amended_backfill_is_column_level (raw : List RawRecord) :
    (hasCategoryColumn raw = false →
      ∀ row ∈ (load_data (Except.ok raw)).1,
        row.category = some "Uncategorized")
    ∧ (hasCategoryColumn raw = true →
      ∀ row ∈ (load_data (Except.ok raw)).1,
        ∃ r ∈ raw, row.category = r.category) := by
  constructor
  · intro h0 row hrow
    rcases mem_normalizeData_category raw row hrow with ⟨r, hr, hcat⟩
    rw [hcat]
    simp [backfillCategory, h0]
  · intro h1 row hrow
    rcases mem_normalizeData_category raw row hrow with ⟨r, hr, hcat⟩
    refine ⟨r, hr, ?_⟩
    rw [hcat]
    simp [backfillCategory, h1]

/-- Witness for C5 (amended): the all-categoryless store gets the
backfill; the mixed store keeps stored cells. -/
theorem C5_amended_witness :
    (hasCategoryColumn [rawNoCat] = false
      ∧ ∀ row ∈ (load_data (Except.ok [rawNoCat])).1,
          row.category = some "Uncategorized")
    ∧ (hasCategoryColumn [rawGood, rawNoCat] = true
      ∧ ∀ row ∈ (load_data (Except.ok [rawGood, rawNoCat])).1,
          ∃ r ∈ [rawGood, rawNoCat], row.category = r.category) :=
  ⟨⟨by decide,
    (C5_amended_backfill_is_column_level [rawNoCat]).1 (by decide)⟩,
   ⟨by decide,
    (C5_amended_backfill_is_column_level [rawGood, rawNoCat]).2
      (by decide)⟩⟩

/-- Claim C9: the remove-expense form offers as deletion candidates only
the at-most-10 rows with the most recent dates: the option list has at
most 10 entries, the candidates come from the snapshot, every candidate
is at least as recent as every row left beyond the first 10 of the
date-descending sort, and every selectable identifier belongs to a
candidate row. -/
theorem C9_remove_offers_ten_most_recent (S : List Row) (hS : S ≠ []) :
    (removal_options S).length ≤ 10
    ∧ (∀ x ∈ recent_expenses S, x ∈ S)
    ∧ (∀ x ∈ recent_expenses S,
        ∀ y ∈ (List.insertionSort rowDateDescR S).drop 10, rowDateDescR x y)
    ∧ (∀ id, id ∈ removal_options S →
        ∃ r ∈ recent_expenses S, r._id = id) := by
  refine ⟨?_, ?_, ?_, ?_⟩
  · simp only [removal_options, recent_expenses, List.length_map,
      List.length_take]
    omega
  · intro x hx
    exact (List.mem_insertionSort rowDateDescR).mp (List.mem_of_mem_take hx)
  · intro x hx y hy
    have hsorted :
        List.Sorted rowDateDescR (List.insertionSort rowDateDescR S) :=
      List.sorted_insertionSort rowDateDescR S
    have hpaired := (List.pairwise_append.mp (by
      rw [List.take_append_drop 10 (List.insertionSort rowDateDescR S)]
      exact hsorted)).2.2
    exact hpaired x hx y hy
  · intro id hid
    rcases List.mem_map.mp hid with ⟨r, hr, heq⟩
    exact ⟨r, hr, heq⟩

/-- Witness for C9 at a concrete one-row snapshot. -/
theorem C9_remove_offers_ten_most_recent_witness :
    ([sampleRow] : List Row) ≠ []
    ∧ ((removal_options [sampleRow]).length ≤ 10
      ∧ (∀ x ∈ recent_expenses [sampleRow], x ∈ [sampleRow])
      ∧ (∀ x ∈ recent_expenses [sampleRow],
          ∀ y ∈ (List.insertionSort rowDateDescR [sampleRow]).drop 10,
            rowDateDescR x y)
      ∧ (∀ id, id ∈ removal_options [sampleRow] →
          ∃ r ∈ recent_expenses [sampleRow], r._id = id)) :=
  ⟨by decide,
   C9_remove_offers_ten_most_recent [sampleRow] (by decide)⟩

/-- Claim C10: when fetching or normalizing raises, load_data returns an
empty snapshot with an error message rather than propagating, and the
empty snapshot drives the dispatch into the add-form-only view, the same
view as for an empty store. -/
theorem C10_load_error_gives_empty_and_add_form (e : String) :
    (load_data (Except.error e)).1 = []
    ∧ main_view (load_data (Except.error e)).1 = View.addFormOnly
    ∧ main_view (load_data (Except.error e)).1
        = main_view (load_data (Except.ok [])).1 :=
  ⟨rfl, rfl, rfl⟩

end OanTrack
